import Mathlib

/-
  Verification of the Crypto_RAG repository core: the news RAG retrieval
  tool, the analysis workflow routing, the ingestion pipeline, the
  embedder batching, the scraper deduplication filter, and the vector
  store bootstrap.  Each definition is a shallow embedding of the
  corresponding Python function; external collaborators (embedding
  service, vector index, LLM) are modelled as explicit environments.
-/

namespace CryptoRag

/-- A payload record flowing out of the retrieval tool
`search_news_rag` (app/agent/tools/news.py) and through the workflow
state.  `hit` is a scored chunk payload returned by
`VectorDatabaseService.search_vectors`; `noResults` is the dictionary
with key `no_results = True` built at news.py lines 151-158;
`error` is the dictionary with key `error` built at news.py line 164. -/
inductive Record where
  | hit (news_id : String) (chunk_index : Nat) (title : String) (source : String)
      (publish_date : String) (chunk_text : String) (score : Rat)
  | noResults (message : String) (original_query : String)
      (suggested_queries : List String)
  | error (msg : String)
deriving DecidableEq, Repr

/-- The whitespace characters removed by the Python `str.strip()`
calls in this code base (ASCII whitespace; the strings stripped here
are ASCII route labels and query text). -/
def isPySpace (c : Char) : Bool :=
  c = ' ' || c = '\t' || c = '\n' || c = '\r' || c = '\x0b' || c = '\x0c'

/-- Python `str.strip()` on the character list. -/
def pyStripChars (l : List Char) : List Char :=
  ((l.dropWhile isPySpace).reverse.dropWhile isPySpace).reverse

/-- Python `str.strip()`, modelled over the underlying character list
so that it reduces inside the kernel. -/
def pyStrip (s : String) : String := ⟨pyStripChars s.data⟩

/-- Python `str.lower()` restricted to ASCII letters (the only strings
lowered in this code base are ASCII route labels). -/
def lowerChar (c : Char) : Char :=
  if 'A' ≤ c && c ≤ 'Z' then Char.ofNat (c.toNat + 32) else c

/-- Python `str.lower()`, modelled over the underlying character list. -/
def pyLower (s : String) : String := ⟨s.data.map lowerChar⟩

/-- Truthiness of `record.get("no_results")`: only the no-results
sentinel dictionary carries a truthy `no_results` key. -/
def Record.isNoResults : Record → Bool
  | .noResults _ _ _ => true
  | _ => false

/-- Environment of the retrieval tool: the embedding collaborator
(`EmbedService.embed_query_jina`, which may raise) and the vector index
search (`VectorDatabaseService.search_vectors`, taking the query vector,
the result limit and the score threshold, and which may raise).
The vector type is abstract. -/
structure SearchEnv (V : Type) where
  embedQuery : String → Except String V
  searchVectors : V → Nat → Rat → Except String (List Record)

/-- The fallback query expansion of news.py lines 124-130: strip the
query; when non-empty build the two expanded phrasings, otherwise the
single generic phrasing. -/
def expandedQueries (query_text : String) : List String :=
  let core := pyStrip query_text
  if core ≠ "" then
    [core ++ " recent cryptocurrency news, price, market, sentiment, latest developments",
      "recent news and analysis about " ++ core ++ " and market impact"]
  else
    ["recent cryptocurrency news and market developments"]

/-- The relaxed threshold used for fallback searches
(news.py line 139): `max(0.5, similarity_threshold - 0.1)`. -/
def relaxedThreshold (similarity_threshold : Rat) : Rat :=
  max (1/2) (similarity_threshold - 1/10)

/-- One iteration of the fallback loop body (news.py lines 134-146):
embed the expanded query and search with doubled limit and relaxed
threshold; any exception in the iteration is caught (`none`). -/
def fallbackAttempt {V : Type} (env : SearchEnv V) (fq : String)
    (max_results : Nat) (similarity_threshold : Rat) : Option (List Record) :=
  match env.embedQuery fq with
  | .error _ => none
  | .ok v =>
    match env.searchVectors v (max_results * 2) (relaxedThreshold similarity_threshold) with
    | .error _ => none
    | .ok rs => some rs

/-- The fallback loop of news.py lines 133-146: try each expanded query
in order; return the first attempt that yields a non-empty result list;
an attempt that raises or yields an empty list moves on to the next. -/
def tryFallbacks {V : Type} (env : SearchEnv V) (qs : List String)
    (max_results : Nat) (similarity_threshold : Rat) : Option (List Record) :=
  match qs with
  | [] => none
  | fq :: rest =>
    match fallbackAttempt env fq max_results similarity_threshold with
    | some rs =>
      if rs.isEmpty then tryFallbacks env rest max_results similarity_threshold
      else some rs
    | none => tryFallbacks env rest max_results similarity_threshold

/-- The message text of the no-results sentinel (news.py line 154). -/
def noResultsMessage : String :=
  "No relevant news chunks were found in the vector DB for the provided query."

/-- The body of `search_news_rag` before the outer `except` clause
(news.py lines 108-160): embed the query, search with the given limit
and threshold, on an empty result run the fallback loop, and if still
empty return the no-results sentinel carrying the original query and
the attempted expansions.  Exceptions from the initial embed or search
propagate as `.error`. -/
def searchNewsRagE {V : Type} (env : SearchEnv V) (query_text : String)
    (max_results : Nat) (similarity_threshold : Rat) : Except String (List Record) :=
  match env.embedQuery query_text with
  | .error e => .error e
  | .ok qv =>
    match env.searchVectors qv max_results similarity_threshold with
    | .error e => .error e
    | .ok results =>
      if results.isEmpty then
        match tryFallbacks env (expandedQueries query_text) max_results similarity_threshold with
        | some rs => .ok rs
        | none =>
          .ok [Record.noResults noResultsMessage query_text (expandedQueries query_text)]
      else
        .ok results

/-- The complete tool `search_news_rag` (news.py lines 108-164): the
whole body is wrapped in try/except, and on any exception the tool
returns a single-element list with the error sentinel record. -/
def searchNewsRag {V : Type} (env : SearchEnv V) (query_text : String)
    (max_results : Nat) (similarity_threshold : Rat) : List Record :=
  match searchNewsRagE env query_text max_results similarity_threshold with
  | .ok rs => rs
  | .error e => [Record.error ("Search failed: " ++ e)]

/-- A message in the LangGraph conversation state.  Tool messages carry
the (deserialized) list of records that `search_news_rag` returned; the
synthesizer parses exactly this list back out of the message content. -/
inductive Message where
  | human (content : String)
  | ai (content : String)
  | tool (results : List Record)
deriving DecidableEq, Repr

/-- The `market_insights` dictionary of the extended workflow state.
Each field is `Option` because the corresponding dictionary key may be
absent before a node writes it. -/
structure MarketInsights where
  news_themes : Option (List String) := none
  key_signals : Option (List String) := none
  processed_news : Option (List Record) := none
  fallback_analysis : Option Bool := none
deriving DecidableEq, Repr

/-- The fields of `ExtendedState` (app/agent/agent.py lines 55-73) that
the synthesis and routing logic reads or writes. -/
structure AgentState where
  messages : List Message := []
  next_node : String := ""
  news_data : List Record := []
  reasoning_steps : List String := []
  market_insights : MarketInsights := {}
deriving DecidableEq, Repr

/-- First tool message in a list, scanning front to back. -/
def firstToolResults : List Message → Option (List Record)
  | [] => none
  | .tool rs :: _ => some rs
  | _ :: rest => firstToolResults rest

/-- The extraction loop of `news_synthesizer_node` (nodes.py lines
334-356): walk the messages in reverse and take the parsed content of
the first tool message encountered. -/
def lastToolResults (messages : List Message) : Option (List Record) :=
  firstToolResults messages.reverse

/-- The sentinel test of nodes.py line 359:
`len(news_data) == 1 and news_data[0].get("no_results")`. -/
def singleNoResults (news_data : List Record) : Bool :=
  match news_data with
  | [r] => r.isNoResults
  | _ => false

/-- `news_synthesizer_node` (nodes.py lines 307-423) as a state
transformer.  `fallback` is the opaque LLM-produced fallback response
appended in the no-evidence branch.  The node seeds `news_themes` and
`key_signals`, extracts tool results into `news_data` when it is empty,
and then either emits the fallback response and sets
`next_node = "__end__"` (sentinel or empty case) or stores the news in
`market_insights.processed_news`. -/
def newsSynthesizerNode (fallback : Message) (s : AgentState) : AgentState :=
  let steps1 := s.reasoning_steps ++ ["News synthesized and relevance scored"]
  let ins1 : MarketInsights :=
    { s.market_insights with news_themes := some [], key_signals := some [] }
  let extracted := if s.news_data.isEmpty then lastToolResults s.messages else none
  let nd := match extracted with
    | some rs => rs
    | none => s.news_data
  let steps2 := match extracted with
    | some rs =>
      steps1 ++ ["Retrieved " ++ toString rs.length ++ " news articles from vector database"]
    | none => steps1
  if nd.isEmpty || singleNoResults nd then
    { s with
      messages := s.messages ++ [fallback]
      news_data := nd
      reasoning_steps :=
        steps2 ++ ["No news retrieved: fallback text-only analysis provided"]
      market_insights := { ins1 with fallback_analysis := some true }
      next_node := "__end__" }
  else
    { s with
      news_data := nd
      reasoning_steps :=
        steps2 ++ ["Successfully processed " ++ toString nd.length
          ++ " news articles for market analysis"]
      market_insights := { ins1 with processed_news := some nd } }

/-- `should_continue_synthesis` (nodes.py lines 551-570): the
conditional edge out of the synthesizer.  It ignores `next_node` and
keys off the presence of retrieved news in `news_data`, falling back to
`market_insights.processed_news`. -/
def shouldContinueSynthesis (s : AgentState) : String :=
  let news :=
    if s.news_data.isEmpty then s.market_insights.processed_news.getD []
    else s.news_data
  if !news.isEmpty then "market_analyzer" else "__end__"

/-- The routing decision of `supervisor` (nodes.py lines 77-93) as a
function of the raw classifier output: strip it, answer directly (route
`end`) on `DIRECT_ANSWER`, otherwise replace any label other than
`RAG_ANALYSIS` by the default and lower-case it. -/
def supervisorNextNode (routing_output : String) : String :=
  let route := pyStrip routing_output
  if route = "DIRECT_ANSWER" then "end"
  else
    let validated := if route ∈ ["RAG_ANALYSIS"] then route else "RAG_ANALYSIS"
    pyLower validated

/-- `route_analysis_flow` (nodes.py lines 573-578): the conditional edge
out of the supervisor. -/
def routeAnalysisFlow (s : AgentState) : String :=
  if s.next_node = "rag_analysis" then "query_processor" else "__end__"

/-- A scraped news item, the dictionary handed to
`RAGService._process_single_news` (keys id, title, time, source,
description).  Timestamps are modelled as integers. -/
structure NewsItem where
  id : String
  title : String
  time : Int
  source : String
  description : String
deriving DecidableEq, Repr

/-- A persisted news document (app/models/news/news.py): the article
record as stored, with the nullable `VDB_added_at` timestamp. -/
structure NewsDoc where
  id : String
  title : String
  time : Int
  source : String
  description : String
  VDB_added_at : Option Int := none
deriving DecidableEq, Repr

/-- Environment for one run of `_process_single_news`: the value or
exception produced by `ChunkService.chunk_text`, by
`EmbedService.embed_text_jina`, and by each sub-batch call to
`VectorDatabaseService.add_vectors` (indexed by batch number, returning
the list of stored point ids). -/
structure ProcEnv where
  chunks : Except String (List String)
  embeds : Except String (List (List Int))
  upsert : Nat → Except String (List String)

/-- Outcome of `_process_single_news`: the returned boolean, and the
value written to `VDB_added_at` by `NewsService.update_news`
(`none` when no update call was made). -/
structure ProcOutcome where
  success : Bool
  vdbUpdate : Option Int
deriving DecidableEq, Repr

/-- Number of iterations of `range(0, n, batch_size)`. -/
def numBatches (n batch_size : Nat) : Nat := (n + batch_size - 1) / batch_size

/-- The sub-batch upsert loop of rag.py lines 160-178: every batch must
return a truthy (non-empty) id list; an exception or a falsy result
fails the article.  Only the overall success matters for the outcome,
so the fail-fast loop is modelled as a conjunction over batch indices. -/
def batchesOk (upsert : Nat → Except String (List String)) (n : Nat) : Bool :=
  (List.range n).all fun i =>
    match upsert i with
    | .ok ids => !ids.isEmpty
    | .error _ => false

/-- `RAGService._process_single_news` (rag.py lines 124-189): skip
blank descriptions, fail on empty or raising chunking or embedding,
upsert the embeddings in sub-batches of 10, and only after every
sub-batch succeeded call
`NewsService.update_news(news_id, {"VDB_added_at": news_item["time"]})`.
Any exception is caught and yields failure with no update. -/
def processSingleNews (env : ProcEnv) (item : NewsItem) : ProcOutcome :=
  if pyStrip item.description = "" then ⟨false, none⟩
  else
    match env.chunks with
    | .error _ => ⟨false, none⟩
    | .ok cs =>
      if cs.isEmpty then ⟨false, none⟩
      else
        match env.embeds with
        | .error _ => ⟨false, none⟩
        | .ok es =>
          if es.isEmpty then ⟨false, none⟩
          else
            if batchesOk env.upsert (numBatches es.length 10) then
              ⟨true, some item.time⟩
            else ⟨false, none⟩

/-- Whether the run reaches the sub-batch upsert stage: non-blank
description, chunking returned a non-empty chunk list, and embedding
returned a non-empty embedding list. -/
def reachesUpsert (env : ProcEnv) (item : NewsItem) : Bool :=
  !(pyStrip item.description == "") &&
    (match env.chunks with | .ok cs => !cs.isEmpty | .error _ => false) &&
    (match env.embeds with | .ok es => !es.isEmpty | .error _ => false)

/-- Whether every sub-batch upsert of the run succeeded. -/
def allSubBatchesOk (env : ProcEnv) : Bool :=
  match env.embeds with
  | .ok es => batchesOk env.upsert (numBatches es.length 10)
  | .error _ => false

/-- The selection step of `RAGService.process_unprocessed_news`
(rag.py line 203): keep exactly the persisted articles whose
`VDB_added_at` is null. -/
def selectUnprocessed (all_news : List NewsDoc) : List NewsDoc :=
  all_news.filter fun news => news.VDB_added_at.isNone

/-- The dictionary branch of `NewsService.update_news`
(app/services/news.py lines 26-43) restricted to the `VDB_added_at`
key: `None` values are filtered out of the update, otherwise the field
is overwritten. -/
def updateNewsVDB (doc : NewsDoc) (value : Option Int) : NewsDoc :=
  match value with
  | none => doc
  | some t => { doc with VDB_added_at := some t }

/-- Environment of the Jina embedder: the remote POST for one batch
either raises (non-2xx) or returns the `data` entries, each entry being
the `embedding` value (`[]` models both a missing and an empty
embedding, which the code treats alike as falsy).  The numeric type of
embeddings is abstract. -/
structure JinaEnv (α : Type) where
  post : List String → Except String (List (List α))

/-- The batching loop of `EmbedService._jina_embed_request`
(embed.py lines 80-126): take batches of 100 in order, POST each batch,
raise on remote failure, and append every truthy returned embedding.
The second component counts the remote calls issued. -/
def jinaGo {α : Type} (env : JinaEnv α) (contents : List String) :
    Except String (List (List α)) × Nat :=
  if h : contents = [] then (.ok [], 0)
  else
    match env.post (contents.take 100) with
    | .error e => (.error ("Failed to embed text with Jina AI: " ++ e), 1)
    | .ok entries =>
      let embs := entries.filter fun v => !v.isEmpty
      match jinaGo env (contents.drop 100) with
      | (.error e, n) => (.error e, n + 1)
      | (.ok more, n) => (.ok (embs ++ more), n + 1)
termination_by contents.length
decreasing_by
  simp only [List.length_drop]
  have hpos : 0 < contents.length := List.length_pos.mpr h
  omega

/-- `EmbedService._jina_embed_request` (embed.py lines 61-126): empty
input returns `[]` immediately, before any session or request is
created; otherwise the batching loop runs. -/
def jinaEmbedRequest {α : Type} (env : JinaEnv α) (contents : List String) :
    Except String (List (List α)) × Nat :=
  if contents.isEmpty then (.ok [], 0) else jinaGo env contents

/-- The timestamp deduplication predicate of `ScrapeService.scrape_news`
(scrape.py lines 144-150): keep an article when no latest timestamp is
stored or its parsed timestamp is strictly newer. -/
def timestampKeep (latest_news_time : Option Int) (item : NewsItem) : Bool :=
  match latest_news_time with
  | none => true
  | some t => decide (t < item.time)

/-- The default timestamp deduplication filter of
`ScrapeService.scrape_news`, applied to the successfully scraped and
time-parsed articles. -/
def timestampFilter (latest_news_time : Option Int) (scraped : List NewsItem) :
    List NewsItem :=
  scraped.filter (timestampKeep latest_news_time)

/-- What `VectorDatabase._ensure_collection_exists`
(app/core/vectordb.py lines 88-118) observes: whether the target
collection exists and, when it does, its configured vector size. -/
structure CollectionState where
  existing : Option Nat
deriving DecidableEq, Repr

/-- Outcome of `_ensure_collection_exists`: whether a collection was
created, whether the size-mismatch error was logged, and the exception
surfaced to the caller, if any. -/
structure EnsureOutcome where
  created : Bool
  errorLogged : Bool
  raised : Option String
deriving DecidableEq, Repr

/-- `VectorDatabase._ensure_collection_exists` (vectordb.py lines
88-118): create the collection when absent; when present with a
different vector size, log an error; the function never raises of its
own accord. -/
def ensureCollectionExists (st : CollectionState) (vector_size : Nat) : EnsureOutcome :=
  match st.existing with
  | none => ⟨true, false, none⟩
  | some collection_vector_size =>
    if collection_vector_size ≠ vector_size then ⟨false, true, none⟩
    else ⟨false, false, none⟩

/-- The bootstrap step of `VectorDatabase.get_client` (vectordb.py
lines 43-76) as seen by the caller: if `_ensure_collection_exists`
raises, the exception is wrapped and re-raised, otherwise the client is
registered and initialization succeeds. -/
def getClientInit (st : CollectionState) (vector_size : Nat) : Except String Unit :=
  match (ensureCollectionExists st vector_size).raised with
  | some e => .error ("Vector DB init error: " ++ e)
  | none => .ok ()

/-
  Helper lemmas and concrete fixtures.
-/

/-- Characterization of `processSingleNews`: the update is stamped with
the publish time exactly when the run reaches the upsert stage and
every sub-batch succeeds; otherwise the article fails with no update. -/
theorem processSingleNews_eq (env : ProcEnv) (item : NewsItem) :
    processSingleNews env item =
      if (reachesUpsert env item && allSubBatchesOk env) = true
      then ⟨true, some item.time⟩ else ⟨false, none⟩ := by
  unfold processSingleNews reachesUpsert allSubBatchesOk
  by_cases hd : pyStrip item.description = ""
  · simp [hd]
  · cases hc : env.chunks with
    | error e => simp [hd, hc]
    | ok cs =>
      by_cases hcs : cs.isEmpty
      · simp [hd, hc, hcs]
      · cases he : env.embeds with
        | error e => simp [hd, hc, hcs, he]
        | ok es =>
          by_cases hes : es.isEmpty
          · simp [hd, hc, hcs, he, hes]
          · by_cases hb : batchesOk env.upsert (numBatches es.length 10)
            · simp [hd, hc, hcs, he, hes, hb]
            · simp [hd, hc, hcs, he, hes, hb]

/-- A fixed scored evidence chunk used by concrete workflow states. -/
def evidenceHit : Record :=
  Record.hit ("n1") 0 ("Fed rate decision") ("TradingView")
    ("2025-01-01") ("Rates held steady") (7/10)

/-- A workflow state holding retrieved evidence in `news_data` while
`market_insights.news_themes` is the empty list. -/
def stateWithEvidence : AgentState :=
  { messages := [Message.human ("bitcoin price")]
    news_data := [evidenceHit]
    market_insights := { news_themes := some [], key_signals := some [] } }

/-- A search environment in which the vector index always returns zero
hits and embedding always succeeds. -/
def emptySearchEnv : SearchEnv Nat :=
  { embedQuery := fun _ => .ok 0
    searchVectors := fun _ _ _ => .ok [] }

/-- What the retrieval tool hands back on a fully empty index: the
single no-results sentinel record. -/
def sentinelToolOutput : List Record :=
  searchNewsRag emptySearchEnv ("bitcoin price") 10 (3/5)

/-- The workflow state entering the synthesizer after the tool ran
against the empty index: the tool message carries the sentinel and
`news_data` is still the initial empty list. -/
def sentinelRunState : AgentState :=
  { messages := [Message.human ("bitcoin price"), Message.tool sentinelToolOutput] }

/-- The opaque LLM-generated fallback response of the synthesizer. -/
def fallbackResponse : Message := Message.ai ("fallback response")

/-
  Claim theorems.
-/

/-- Claim C1: for every workflow state whose retrieved-news field
(`news_data`, or `market_insights.processed_news` as fallback) is a
non-empty list of evidence records, `should_continue_synthesis` selects
the market-analyzer stage and does not terminate the workflow, with no
dependence on `market_insights.news_themes` (so in particular even when
it is empty). -/
theorem synthesis_continues_on_evidence (s : AgentState)
    (h : s.news_data ≠ [] ∨ s.market_insights.processed_news.getD [] ≠ []) :
    shouldContinueSynthesis s = "market_analyzer" ∧
      shouldContinueSynthesis s ≠ "__end__" := by
  have key : shouldContinueSynthesis s = "market_analyzer" := by
    unfold shouldContinueSynthesis
    by_cases hnd : s.news_data.isEmpty
    · have hnil : s.news_data = [] := by simpa using hnd
      have hp : s.market_insights.processed_news.getD [] ≠ [] := by
        rcases h with h | h
        · exact absurd hnil h
        · exact h
      simp [hnd, hp]
    · simp [hnd]
  refine ⟨key, ?_⟩
  rw [key]
  decide

/-- Witness for claim C1, at a state with one retrieved evidence record
and an empty `news_themes`. -/
theorem synthesis_continues_on_evidence_witness :
    shouldContinueSynthesis stateWithEvidence = "market_analyzer" :=
  (synthesis_continues_on_evidence stateWithEvidence (Or.inl (by decide))).1

/-- Claim C2 (divergence witness): when the retrieval tool returned the
no-results sentinel as the only result, `news_synthesizer_node` appends
the fallback response and signals termination via
`next_node = "__end__"`, but it also stores the sentinel list into
`news_data`, and the conditional edge `should_continue_synthesis`
ignores `next_node`, sees the non-empty `news_data`, and routes the run
to the market-analyzer stage: the MarketAnalyzer stage IS invoked,
contrary to the claim. -/
theorem sentinel_run_still_reaches_market_analyzer :
    sentinelToolOutput =
      [Record.noResults noResultsMessage ("bitcoin price")
        (expandedQueries ("bitcoin price"))] ∧
    (newsSynthesizerNode fallbackResponse sentinelRunState).next_node = "__end__" ∧
    (newsSynthesizerNode fallbackResponse sentinelRunState).messages =
      sentinelRunState.messages ++ [fallbackResponse] ∧
    (newsSynthesizerNode fallbackResponse sentinelRunState).news_data =
      sentinelToolOutput ∧
    shouldContinueSynthesis (newsSynthesizerNode fallbackResponse sentinelRunState) =
      "market_analyzer" := by
  refine ⟨by decide, by decide, by decide, by decide, by decide⟩

/-- Claim C3: `VDB_added_at` is stamped exactly when the article
reaches the sub-batch upsert stage (non-blank description, non-empty
chunking and embedding) and every sub-batch upsert succeeds; any
chunking, embedding or sub-batch failure leaves the update unwritten;
and `process_unprocessed_news` selects exactly the persisted articles
whose `VDB_added_at` is null. -/
theorem vdb_added_at_iff_all_subbatches_ok (env : ProcEnv) (item : NewsItem)
    (all_news : List NewsDoc) :
    ((processSingleNews env item).vdbUpdate.isSome ↔
      (reachesUpsert env item && allSubBatchesOk env) = true) ∧
    (∀ doc : NewsDoc, doc ∈ selectUnprocessed all_news ↔
      doc ∈ all_news ∧ doc.VDB_added_at = none) := by
  constructor
  · rw [processSingleNews_eq]
    by_cases hc : (reachesUpsert env item && allSubBatchesOk env) = true
    · simp [hc]
    · simp [hc]
  · intro doc
    simp [selectUnprocessed, List.mem_filter, Option.isNone_iff_eq_none]

/-- Helper for claim C4: the fallback loop returns the result list of
the first expanded query whose attempt yields a non-empty list, when
every earlier attempt raised or came back empty. -/
theorem tryFallbacks_first {V : Type} (env : SearchEnv V) (mr : Nat) (t : Rat) :
    ∀ (pre : List String) (fq : String) (post : List String) (rs : List Record),
      (∀ q ∈ pre, fallbackAttempt env q mr t = none ∨
        fallbackAttempt env q mr t = some []) →
      fallbackAttempt env fq mr t = some rs → rs ≠ [] →
      tryFallbacks env (pre ++ fq :: post) mr t = some rs := by
  intro pre
  induction pre with
  | nil =>
    intro fq post rs hpre hfb hne
    have hemp : rs.isEmpty = false := by simpa using hne
    simp [tryFallbacks, hfb, hemp]
  | cons q qs ih =>
    intro fq post rs hpre hfb hne
    have hq := hpre q (by simp)
    have hrest := ih fq post rs (fun p hp => hpre p (by simp [hp])) hfb hne
    rcases hq with hq | hq
    · simpa [tryFallbacks, hq] using hrest
    · simpa [tryFallbacks, hq] using hrest

/-- Claim C4: if the initial embed succeeds and the initial search with
threshold `t` returns zero hits, and some expanded fallback query is
the first to yield a non-empty result set, then the tool returns
exactly that result set; the fallback list has at most two entries, and
the successful fallback search ran with the doubled limit and the
relaxed threshold `max(0.5, t - 0.1)`. -/
theorem search_fallback_returns_first_nonempty {V : Type} (env : SearchEnv V)
    (query_text : String) (max_results : Nat) (t : Rat) (v : V)
    (pre : List String) (fq : String) (post : List String) (rs : List Record)
    (hembed : env.embedQuery query_text = .ok v)
    (hinit : env.searchVectors v max_results t = .ok [])
    (hsplit : expandedQueries query_text = pre ++ fq :: post)
    (hpre : ∀ q ∈ pre, fallbackAttempt env q max_results t = none ∨
      fallbackAttempt env q max_results t = some [])
    (hfb : fallbackAttempt env fq max_results t = some rs)
    (hne : rs ≠ []) :
    searchNewsRag env query_text max_results t = rs ∧
      (expandedQueries query_text).length ≤ 2 ∧
      ∃ w, env.embedQuery fq = .ok w ∧
        env.searchVectors w (max_results * 2) (max (1/2) (t - 1/10)) = .ok rs := by
  have htry : tryFallbacks env (expandedQueries query_text) max_results t = some rs := by
    rw [hsplit]
    exact tryFallbacks_first env max_results t pre fq post rs hpre hfb hne
  refine ⟨?_, ?_, ?_⟩
  · unfold searchNewsRag searchNewsRagE
    simp [hembed, hinit, htry]
  · unfold expandedQueries
    by_cases hcore : pyStrip query_text ≠ ""
    · simp [hcore]
    · simp [hcore]
  · unfold fallbackAttempt at hfb
    cases hq : env.embedQuery fq with
    | error e =>
      rw [hq] at hfb
      simp at hfb
    | ok w =>
      rw [hq] at hfb
      simp only at hfb
      cases hs : env.searchVectors w (max_results * 2) (relaxedThreshold t) with
      | error e =>
        rw [hs] at hfb
        simp at hfb
      | ok rs2 =>
        rw [hs] at hfb
        simp only at hfb
        have hrs : rs2 = rs := by simpa using hfb
        subst hrs
        exact ⟨w, rfl, by simpa [relaxedThreshold] using hs⟩

/-- A fixed scored chunk returned by the fallback search. -/
def fallbackHit : Record :=
  Record.hit ("n2") 0 ("ETF inflows") ("TradingView")
    ("2025-01-02") ("Inflows rose") (3/5)

/-- A search environment whose index misses the original query (its
embedding is the string length, 3 for the query used below) but hits
every expanded query. -/
def fallbackSearchEnv : SearchEnv Nat :=
  { embedQuery := fun q => .ok q.length
    searchVectors := fun v _ _ => if v = 3 then .ok [] else .ok [fallbackHit] }

/-- Witness for claim C4: against `fallbackSearchEnv` the query `btc`
finds nothing initially and the tool returns the results of the first
expanded fallback query. -/
theorem search_fallback_returns_first_nonempty_witness :
    searchNewsRag fallbackSearchEnv ("btc") 10 (3/5) = [fallbackHit] := by
  have h := search_fallback_returns_first_nonempty fallbackSearchEnv ("btc") 10 (3/5) 3
    [] ("btc recent cryptocurrency news, price, market, sentiment, latest developments")
    ["recent news and analysis about btc and market impact"] [fallbackHit]
    rfl rfl (by decide) (by intro q hq; simp at hq) rfl (by decide)
  exact h.1

/-- Claim C5: the retrieval tool never propagates an exception.  When
any step of the body raises, the tool returns the single-element error
sentinel list; moreover the body can only raise from the initial query
embedding or the initial vector search, since exceptions inside the
fallback loop are swallowed per attempt. -/
theorem search_never_raises {V : Type} (env : SearchEnv V) (query_text : String)
    (max_results : Nat) (t : Rat) :
    (∀ e, searchNewsRagE env query_text max_results t = .error e →
      searchNewsRag env query_text max_results t =
        [Record.error ("Search failed: " ++ e)]) ∧
    ((∃ e, searchNewsRagE env query_text max_results t = .error e) →
      (∃ e, env.embedQuery query_text = .error e) ∨
        ∃ w e, env.embedQuery query_text = .ok w ∧
          env.searchVectors w max_results t = .error e) := by
  constructor
  · intro e he
    unfold searchNewsRag
    rw [he]
  · rintro ⟨e, he⟩
    unfold searchNewsRagE at he
    cases hq : env.embedQuery query_text with
    | error e2 => exact Or.inl ⟨e2, rfl⟩
    | ok w =>
      rw [hq] at he
      simp only at he
      cases hs : env.searchVectors w max_results t with
      | error e2 => exact Or.inr ⟨w, e2, rfl, hs⟩
      | ok results =>
        rw [hs] at he
        simp only at he
        exfalso
        by_cases hres : results.isEmpty
        · rw [if_pos hres] at he
          cases htf : tryFallbacks env (expandedQueries query_text) max_results t with
          | none => rw [htf] at he; simp at he
          | some rs => rw [htf] at he; simp at he
        · rw [if_neg hres] at he
          simp at he

/-- A search environment whose embedding collaborator always raises. -/
def raisingSearchEnv : SearchEnv Nat :=
  { embedQuery := fun _ => .error ("boom")
    searchVectors := fun _ _ _ => .ok [] }

/-- Witness for claim C5: with a raising embedder the tool returns the
error sentinel instead of raising. -/
theorem search_never_raises_witness :
    searchNewsRag raisingSearchEnv ("bitcoin") 10 (3/5) =
      [Record.error ("Search failed: boom")] := by
  have h := (search_never_raises raisingSearchEnv ("bitcoin") 10 (3/5)).1 ("boom") rfl
  exact h.trans (by decide)

/-- Helper for claim C6: when the remote service returns exactly one
non-empty embedding per input text in input order, the batching loop
returns one embedding per input text in input order. -/
theorem jinaGo_maps {α : Type} (env : JinaEnv α) (f : String → List α)
    (hf : ∀ b, env.post b = .ok (b.map f)) (hne : ∀ s, f s ≠ []) :
    ∀ (n : Nat) (contents : List String), contents.length ≤ n →
      (jinaGo env contents).1 = .ok (contents.map f) := by
  intro n
  induction n with
  | zero =>
    intro contents hlen
    have hnil : contents = [] := List.length_eq_zero.mp (Nat.le_zero.mp hlen)
    subst hnil
    simp [jinaGo]
  | succ n ih =>
    intro contents hlen
    by_cases hc : contents = []
    · subst hc
      simp [jinaGo]
    · rw [jinaGo]
      simp only [hc, dif_neg]
      rw [hf]
      have hfilter : (((contents.take 100).map f).filter fun v => !v.isEmpty) =
          (contents.take 100).map f := by
        apply List.filter_eq_self.mpr
        intro v hv
        obtain ⟨s, _, rfl⟩ := List.mem_map.mp hv
        simpa using hne s
      rcases hgo : jinaGo env (contents.drop 100) with ⟨r, cnt⟩
      have hr : r = .ok ((contents.drop 100).map f) := by
        have hdrop := ih (contents.drop 100) (by
          simp only [List.length_drop]
          have hpos : 0 < contents.length := List.length_pos.mpr hc
          omega)
        rw [hgo] at hdrop
        exact hdrop
      subst hr
      simp only [hgo, hfilter]
      rw [← List.map_append, List.take_append_drop]
      simp

/-- Claim C6: when the remote embedding service honours its contract
(one embedding per input text, in input order, each non-empty), the
embedder returns exactly one vector per input text, in input order; and
on the empty input list it returns the empty sequence having issued
zero remote requests. -/
theorem embed_one_vector_per_input {α : Type} (env : JinaEnv α) (f : String → List α)
    (contents : List String)
    (hf : ∀ b, env.post b = .ok (b.map f)) (hne : ∀ s, f s ≠ []) :
    (jinaEmbedRequest env contents).1 = .ok (contents.map f) ∧
      jinaEmbedRequest env [] = (.ok [], 0) := by
  constructor
  · unfold jinaEmbedRequest
    by_cases hc : contents.isEmpty
    · have hnil : contents = [] := by simpa using hc
      subst hnil
      simp
    · rw [if_neg hc]
      exact jinaGo_maps env f hf hne contents.length contents le_rfl
  · rfl

/-- A remote embedding service returning the constant vector for each
input text. -/
def constJinaEnv : JinaEnv Int :=
  { post := fun b => .ok (b.map fun _ => [0]) }

/-- Witness for claim C6: two inputs give exactly two vectors in input
order, and the empty input gives no vectors and no remote call. -/
theorem embed_one_vector_per_input_witness :
    (jinaEmbedRequest constJinaEnv ["a", "bb"]).1 = .ok [[(0 : Int)], [0]] ∧
      jinaEmbedRequest constJinaEnv [] = (.ok [], 0) := by
  have h := embed_one_vector_per_input constJinaEnv (fun _ => [(0 : Int)]) ["a", "bb"]
    (fun b => rfl) (fun s => by simp)
  exact ⟨by simpa using h.1, h.2⟩

/-- Claim C7: the default timestamp deduplication keeps exactly the
scraped articles whose parsed timestamp is strictly greater than the
most recent stored timestamp, and keeps every scraped article when the
storage is empty. -/
theorem timestamp_dedup_keeps_strictly_newer (scraped : List NewsItem) (t : Int) :
    (∀ item, item ∈ timestampFilter (some t) scraped ↔
      item ∈ scraped ∧ t < item.time) ∧
    timestampFilter none scraped = scraped := by
  constructor
  · intro item
    simp [timestampFilter, List.mem_filter, timestampKeep]
  · simp [timestampFilter, timestampKeep]

/-- Claim C8 counterexample: with an existing collection of size 512
and a configured embedding dimension of 1024, `_ensure_collection_exists`
raises nothing and `get_client` initialization succeeds, so no
configuration error surfaces to the caller at this mismatched input. -/
theorem dimension_mismatch_not_raised_counterexample :
    (512 : Nat) ≠ 1024 ∧
      (ensureCollectionExists ⟨some 512⟩ 1024).raised = none ∧
      getClientInit ⟨some 512⟩ 1024 = .ok () := by
  refine ⟨by decide, rfl, rfl⟩

/-- Claim C8 amended: on connection bootstrap, if the target collection
already exists with a vector dimension different from the configured
embedding dimension, the gateway logs the mismatch error but raises
nothing: no collection is created and client initialization proceeds
successfully. -/
theorem dimension_mismatch_logs_and_proceeds (st : CollectionState)
    (existing_size vector_size : Nat)
    (hex : st.existing = some existing_size) (hne : existing_size ≠ vector_size) :
    ensureCollectionExists st vector_size = ⟨false, true, none⟩ ∧
      getClientInit st vector_size = .ok () := by
  have key : ensureCollectionExists st vector_size = ⟨false, true, none⟩ := by
    unfold ensureCollectionExists
    rw [hex]
    simp [hne]
  refine ⟨key, ?_⟩
  unfold getClientInit
  rw [key]

/-- Witness for the amended claim C8, at the concrete mismatch 512
versus 1024. -/
theorem dimension_mismatch_logs_and_proceeds_witness :
    ensureCollectionExists ⟨some 512⟩ 1024 = ⟨false, true, none⟩ :=
  (dimension_mismatch_logs_and_proceeds ⟨some 512⟩ 512 1024 rfl (by decide)).1

/-- Claim C9 counterexample: the classifier output with a trailing
newline differs from the exact string `DIRECT_ANSWER`, yet the
supervisor strips it first and routes the turn to the direct-answer
terminal path, not to the retrieval/analysis path. -/
theorem untrimmed_direct_answer_counterexample :
    ("DIRECT_ANSWER\n" : String) ≠ "DIRECT_ANSWER" ∧
      supervisorNextNode ("DIRECT_ANSWER\n") = "end" ∧
      routeAnalysisFlow { next_node := supervisorNextNode ("DIRECT_ANSWER\n") } =
        "__end__" := by
  refine ⟨by decide, by decide, by decide⟩

/-- Claim C9 amended: for every classifier output whose
whitespace-stripped form is not `DIRECT_ANSWER`, the supervisor sets
the next node to `rag_analysis` (any unrecognized label is silently
replaced by the `RAG_ANALYSIS` default) and the conditional edge then
routes the turn into the retrieval/analysis path. -/
theorem nondirect_output_routes_to_rag (s : AgentState) (routing_output : String)
    (h : pyStrip routing_output ≠ "DIRECT_ANSWER") :
    supervisorNextNode routing_output = "rag_analysis" ∧
      routeAnalysisFlow { s with next_node := supervisorNextNode routing_output } =
        "query_processor" := by
  have key : supervisorNextNode routing_output = "rag_analysis" := by
    unfold supervisorNextNode
    rw [if_neg h]
    by_cases hm : pyStrip routing_output ∈ ["RAG_ANALYSIS"]
    · have heq : pyStrip routing_output = "RAG_ANALYSIS" := by simpa using hm
      rw [if_pos hm, heq]
      decide
    · rw [if_neg hm]
      decide
  refine ⟨key, ?_⟩
  simp [routeAnalysisFlow, key]

/-- Witness for the amended claim C9, at a concrete unrecognized
classifier label. -/
theorem nondirect_output_routes_to_rag_witness :
    supervisorNextNode ("SOMETHING_ELSE") = "rag_analysis" ∧
      routeAnalysisFlow { next_node := supervisorNextNode ("SOMETHING_ELSE") } =
        "query_processor" :=
  nondirect_output_routes_to_rag {} ("SOMETHING_ELSE") (by decide)

/-- Claim C10: when an article is processed successfully, the value
written to `VDB_added_at` is the publish time carried by the article
itself (`news_item["time"]`), the document update stores exactly that
value, and the stamp never equals any completion time that differs from
the publish time — the model takes no clock input at all. -/
theorem vdb_stamp_is_publish_time (env : ProcEnv) (item : NewsItem) (doc : NewsDoc)
    (h : (processSingleNews env item).success = true) :
    (processSingleNews env item).vdbUpdate = some item.time ∧
      (updateNewsVDB doc (some item.time)).VDB_added_at = some item.time ∧
      ∀ completion_time : Int, completion_time ≠ item.time →
        (processSingleNews env item).vdbUpdate ≠ some completion_time := by
  have key : (processSingleNews env item).vdbUpdate = some item.time := by
    rw [processSingleNews_eq] at h ⊢
    by_cases hc : (reachesUpsert env item && allSubBatchesOk env) = true
    · simp [hc]
    · rw [if_neg hc] at h
      simp at h
  refine ⟨key, rfl, ?_⟩
  intro completion_time hct
  rw [key]
  intro hcontra
  exact hct (by simpa using hcontra.symm)

/-- An environment in which chunking, embedding and every sub-batch
upsert succeed. -/
def successEnv : ProcEnv :=
  { chunks := .ok ["chunk one"]
    embeds := .ok [[1]]
    upsert := fun _ => .ok ["pid-1"] }

/-- A sample scraped article. -/
def sampleItem : NewsItem :=
  { id := "n1", title := "t", time := 5, source := "s", description := "body" }

/-- Witness for claim C10: the fully successful run stamps the publish
time 5 of the sample article. -/
theorem vdb_stamp_is_publish_time_witness :
    (processSingleNews successEnv sampleItem).vdbUpdate = some 5 :=
  (vdb_stamp_is_publish_time successEnv sampleItem {
    id := "n1", title := "t", time := 5, source := "s", description := "body" }
    (by decide)).1

end CryptoRag
